import Mathlib

/-!
Verification of the changify.ard geometry/affine-transform subsystem.

Numeric values (the source's Num = Union[float, int]) are modelled as exact
rationals, and pixel indices as integers.  Python's int() conversion
truncates toward zero and its floor division rounds toward negative
infinity; both are embedded explicitly.  Fallible operations (Python
exceptions) are modelled with Except.
-/

/-- Python's int() applied to a numeric value: truncation toward zero. -/
def truncQ (q : ℚ) : ℤ := if q < 0 then ⌈q⌉ else ⌊q⌋

/-- Container for projected spatial extent parameters (GeoExtent), field
order (xmin, ymax, xmax, ymin). -/
structure GeoExtent where
  xmin : ℚ
  ymax : ℚ
  xmax : ℚ
  ymin : ℚ
deriving DecidableEq, Repr

/-- Projected coordinate pair (GeoCoordinate). -/
structure GeoCoordinate where
  x : ℚ
  y : ℚ
deriving DecidableEq, Repr

/-- Row/column pair (RowColumn). -/
structure RowColumn where
  row : ℤ
  column : ℤ
deriving DecidableEq, Repr

/-- Row/column extent parameters (RowColumnExtent). -/
structure RowColumnExtent where
  st_row : ℤ
  st_col : ℤ
  end_row : ℤ
  end_col : ℤ
deriving DecidableEq, Repr

/-- A 6-entry geotransform (ulx, xres, rot1, uly, rot2, yres).  The source
passes these around as plain 6-tuples; the field names here follow the
GeoAffine tuple shown in the source's docstring examples. -/
structure GeoAffine where
  ulx : ℚ
  xres : ℚ
  rot1 : ℚ
  uly : ℚ
  rot2 : ℚ
  yres : ℚ
deriving DecidableEq, Repr

/-- ARDCONUS_EXT = GeoExtent(-2565585, 3314805, 2384415, 14805). -/
def ARDCONUS_EXT : GeoExtent := ⟨-2565585, 3314805, 2384415, 14805⟩

/-- ARDAK_EXT = GeoExtent(-851715, 2474325, 1698285, 374325). -/
def ARDAK_EXT : GeoExtent := ⟨-851715, 2474325, 1698285, 374325⟩

/-- ARDHI_EXT = GeoExtent(-444345, 2168895, 305655, 1718895). -/
def ARDHI_EXT : GeoExtent := ⟨-444345, 2168895, 305655, 1718895⟩

/-- ARDCONUS_CHIPAFF = (ARDCONUS_EXT[0], 3000, 0, ARDCONUS_EXT[1], 0, -3000). -/
def ARDCONUS_CHIPAFF : GeoAffine :=
  ⟨ARDCONUS_EXT.xmin, 3000, 0, ARDCONUS_EXT.ymax, 0, -3000⟩

/-- ARDCONUS_TILEAFF = (ARDCONUS_EXT[0], 15e4, 0, ARDCONUS_EXT[1], 0, -15e4),
the float 15e4 being exactly 150000. -/
def ARDCONUS_TILEAFF : GeoAffine :=
  ⟨ARDCONUS_EXT.xmin, 150000, 0, ARDCONUS_EXT.ymax, 0, -150000⟩

/-- ard_hv(h, v, extent): geospatial extent and 30m affine for an ARD grid
location, computed exactly as in the source:
xmin = extent[0] + h*5000*30, xmax = xmin + 5000*30,
ymax = extent[1] - v*5000*30, ymin = ymax - 5000*30,
affine (xmin, 30, 0, ymax, 0, -30). -/
def ard_hv (h v : ℤ) (extent : GeoExtent) : GeoExtent × GeoAffine :=
  ((⟨extent.xmin + h * 5000 * 30,
     extent.ymax - v * 5000 * 30,
     extent.xmin + h * 5000 * 30 + 5000 * 30,
     extent.ymax - v * 5000 * 30 - 5000 * 30⟩ : GeoExtent),
   (⟨extent.xmin + h * 5000 * 30, 30, 0,
     extent.ymax - v * 5000 * 30, 0, -30⟩ : GeoAffine))

/-- fifteen_offset(val) = int(val // 30) * 30 + 15, where // is Python floor
division and the outer int() (truncation toward zero) acts on its
integer-valued result. -/
def fifteen_offset (val : ℚ) : ℤ :=
  truncQ ((⌊val / 30⌋ : ℤ) : ℚ) * 30 + 15

/-- transform_geo(coord, affine): geospatial coordinate to row/col.  Source:
col = (coord[0] - affine[0] - affine[3] * affine[2]) / affine[1] and
row = (coord[1] - affine[3] - affine[0] * affine[4]) / affine[5], returning
RowColumn(int(row), int(col)). -/
def transform_geo (coord : GeoCoordinate) (affine : GeoAffine) : RowColumn :=
  ⟨truncQ ((coord.y - affine.uly - affine.ulx * affine.rot2) / affine.yres),
   truncQ ((coord.x - affine.ulx - affine.uly * affine.rot1) / affine.xres)⟩

/-- transform_rc(rowcol, affine): row/col to geospatial coordinate.  Source:
x = affine[0] + rowcol[1]*affine[1] + rowcol[0]*affine[2] and
y = affine[3] + rowcol[1]*affine[4] + rowcol[0]*affine[5]. -/
def transform_rc (rowcol : RowColumn) (affine : GeoAffine) : GeoCoordinate :=
  ⟨affine.ulx + rowcol.column * affine.xres + rowcol.row * affine.rot1,
   affine.uly + rowcol.column * affine.rot2 + rowcol.row * affine.yres⟩

/-- split_extent on a GeoExtent: its UL (xmin, ymax) and LR (xmax, ymin)
corner coordinates. -/
def split_extent (extent : GeoExtent) : GeoCoordinate × GeoCoordinate :=
  (⟨extent.xmin, extent.ymax⟩, ⟨extent.xmax, extent.ymin⟩)

/-- split_extent on a RowColumnExtent: its UL (st_row, st_col) and LR
(end_row, end_col) corner pairs. -/
def split_rcextent (extent : RowColumnExtent) : RowColumn × RowColumn :=
  (⟨extent.st_row, extent.st_col⟩, ⟨extent.end_row, extent.end_col⟩)

/-- transform_ext in the GeoExtent to RowColumnExtent direction:
RowColumnExtent built from transform_geo applied to both corners of
split_extent, in corner order (UL row, UL col, LR row, LR col). -/
def transform_ext (extent : GeoExtent) (affine : GeoAffine) : RowColumnExtent :=
  ⟨(transform_geo (split_extent extent).1 affine).row,
   (transform_geo (split_extent extent).1 affine).column,
   (transform_geo (split_extent extent).2 affine).row,
   (transform_geo (split_extent extent).2 affine).column⟩

/-- determine_hv(coord, aff) = transform_geo(coord, aff)[::-1]: the reversed
(row, column) pair, so the result is (column, row) = (h, v).  The source
gives aff the default value ARDCONUS_TILEAFF; here it is passed explicitly. -/
def determine_hv (coord : GeoCoordinate) (aff : GeoAffine) : ℤ × ℤ :=
  ((transform_geo coord aff).column, (transform_geo coord aff).row)

/-- Modelled from the spec: the tile-level affine derived from a reference
extent (cell size 150,000 units, origin at the extent's upper left, zero
rotation, section 4.2 of the design).  The source materialises only the
continental instance ARDCONUS_TILEAFF; the other reference extents have no
affine constants of their own. -/
def tile_affine (extent : GeoExtent) : GeoAffine :=
  ⟨extent.xmin, 150000, 0, extent.ymax, 0, -150000⟩

/-- chipul(coord, aff): round trip through transform_geo then transform_rc
with the chip affine. -/
def chipul (coord : GeoCoordinate) (aff : GeoAffine) : GeoCoordinate :=
  transform_rc (transform_geo coord aff) aff

/-- The row/column formula exactly as the specification words it:
row = int((coord.y - origin_y - coord.x * x_rotation) / y_pixel_size) and the
analogous column using origin_x, x_pixel_size and y_rotation.  Written from
the spec to be compared against transform_geo, which was written from the
source. -/
def transform_geo_claim (coord : GeoCoordinate) (affine : GeoAffine) : RowColumn :=
  ⟨truncQ ((coord.y - affine.uly - coord.x * affine.rot1) / affine.yres),
   truncQ ((coord.x - affine.ulx - coord.y * affine.rot2) / affine.xres)⟩

/-- Error kinds relevant to the verified operations.  zeroDivisionError is
Python's error on division by zero; invalidAffine and extentOutOfBounds are
the error kinds the specification postulates; windowOutOfRange is the raster
library's error for a read window outside the raster. -/
inductive PyErr where
  | zeroDivisionError : PyErr
  | invalidAffine : PyErr
  | extentOutOfBounds : PyErr
  | windowOutOfRange : PyErr
deriving DecidableEq, Repr

/-- transform_geo with Python's exceptional behaviour made explicit: the
source divides by affine[1] (line computing col, executed first) and by
affine[5] (line computing row); a zero divisor raises ZeroDivisionError. -/
def transform_geoE (coord : GeoCoordinate) (affine : GeoAffine) :
    Except PyErr RowColumn :=
  if affine.xres = 0 then Except.error PyErr.zeroDivisionError
  else if affine.yres = 0 then Except.error PyErr.zeroDivisionError
  else Except.ok (transform_geo coord affine)

/-- Modelled from the spec: an opaque raster source (section 4.4), carrying
its pixel height/width, its affine, and its sample values.  The raster
file-access primitives are external collaborators of this repository. -/
structure Raster where
  height : ℕ
  width : ℕ
  affine : GeoAffine
  data : ℕ → ℕ → ℤ

/-- Whether a row/column window lies inside a raster's pixel bounds. -/
def window_in_bounds (r : Raster) (rc : RowColumnExtent) : Bool :=
  decide (0 ≤ rc.st_row) && decide (0 ≤ rc.st_col) &&
  decide (rc.st_row ≤ rc.end_row) && decide (rc.st_col ≤ rc.end_col) &&
  decide (rc.end_row ≤ (r.height : ℤ)) && decide (rc.end_col ≤ (r.width : ℤ))

/-- Modelled from the spec: read_window of the Raster Access Adapter
(section 4.4), covering exactly the rectangle
[st_row, end_row) x [st_col, end_col).  The underlying raster library
(external to this repository) fails a window that is not inside the raster's
pixel bounds with its own out-of-range read error; it never clamps. -/
def read_window (r : Raster) (rc : RowColumnExtent) : Except PyErr (List (List ℤ)) :=
  if window_in_bounds r rc then
    Except.ok ((List.range (rc.end_row - rc.st_row).toNat).map (fun i =>
      (List.range (rc.end_col - rc.st_col).toNat).map (fun j =>
        r.data (rc.st_row.toNat + i) (rc.st_col.toNat + j))))
  else Except.error PyErr.windowOutOfRange

/-- extract_rcextent(path, rc_extent, band): splits the extent into UL and LR
and reads the window (ul.column, ul.row, lr.column - ul.column,
lr.row - ul.row), i.e. exactly the [UL, LR) rectangle. -/
def extract_rcextent (r : Raster) (rc_extent : RowColumnExtent) :
    Except PyErr (List (List ℤ)) :=
  read_window r ⟨(split_rcextent rc_extent).1.row, (split_rcextent rc_extent).1.column,
                 (split_rcextent rc_extent).2.row, (split_rcextent rc_extent).2.column⟩

/-- extract_geoextent(path, geo_extent, band): transform the geographic
extent with the raster's own affine, then extract_rcextent. -/
def extract_geoextent (r : Raster) (geo_extent : GeoExtent) :
    Except PyErr (List (List ℤ)) :=
  extract_rcextent r (transform_ext geo_extent r.affine)

/-- A concrete 2x2 raster with unit pixels anchored at the origin, used to
exercise the extraction path on explicit inputs. -/
def testRaster : Raster := ⟨2, 2, ⟨0, 1, 0, 0, 0, -1⟩, fun _ _ => 7⟩

/- ### Helper lemmas -/

/-- truncQ of an integer is that integer. -/
theorem truncQ_intCast (n : ℤ) : truncQ (n : ℚ) = n := by
  unfold truncQ
  split <;> simp

/-- truncQ of a nonnegative rational is its floor. -/
theorem truncQ_of_nonneg {q : ℚ} (h : 0 ≤ q) : truncQ q = ⌊q⌋ := by
  unfold truncQ
  rw [if_neg (not_lt.mpr h)]

/-- truncQ of a nonpositive rational is its ceiling. -/
theorem truncQ_of_nonpos {q : ℚ} (h : q ≤ 0) : truncQ q = ⌈q⌉ := by
  unfold truncQ
  rcases lt_or_eq_of_le h with h' | h'
  · rw [if_pos h']
  · subst h'
    simp

/-- fifteen_offset unfolded: the outer truncation is the identity on the
integer result of the floor division. -/
theorem fifteen_offset_eq (val : ℚ) :
    fifteen_offset val = ⌊val / 30⌋ * 30 + 15 := by
  unfold fifteen_offset
  rw [truncQ_intCast]

/- ### Claim theorems -/

/-- C9: for every rational input, including negative and fractional ones,
fifteen_offset(val) equals the floor (toward negative infinity) of val/30,
times 30, plus 15; consequently the result is an odd multiple of 15 and the
result minus 15 is a multiple of 30.  The value at -1 is -15 (truncation
toward zero would give 15). -/
theorem fifteen_offset_floor_align (val : ℚ) :
    fifteen_offset val = ⌊val / 30⌋ * 30 + 15 ∧
    (∃ k : ℤ, fifteen_offset val = 15 * (2 * k + 1)) ∧
    (30 : ℤ) ∣ (fifteen_offset val - 15) ∧
    fifteen_offset (-1 : ℚ) = -15 := by
  refine ⟨fifteen_offset_eq val,
    ⟨⌊val / 30⌋, by rw [fifteen_offset_eq]; ring⟩,
    ⟨⌊val / 30⌋, by rw [fifteen_offset_eq]; ring⟩, ?_⟩
  rw [fifteen_offset_eq]
  norm_num

/-- C2 (counterexample): the module's chip affine has cell size 3000
geographic units, not 30 units as the claim states; no published affine
constant has cell size 30. -/
theorem chipaff_cell_size_not_thirty :
    ARDCONUS_CHIPAFF.xres = 3000 ∧ ARDCONUS_CHIPAFF.xres ≠ 30 := by
  unfold ARDCONUS_CHIPAFF
  norm_num

/-- C2 (amended): the module publishes exactly three reference GeoExtent
constants with these fixed bounds, and the continental one is paired with
two derived affines anchored at its upper-left corner: a tile affine with
cell size 150,000 geographic units (5000 pixels of 30 units) and a chip
affine with cell size 3000 units (100 pixels of 30 units); the Alaska and
Hawaii extents have no derived affine constants. -/
theorem ard_reference_constants :
    ARDCONUS_EXT = ⟨-2565585, 3314805, 2384415, 14805⟩ ∧
    ARDAK_EXT = ⟨-851715, 2474325, 1698285, 374325⟩ ∧
    ARDHI_EXT = ⟨-444345, 2168895, 305655, 1718895⟩ ∧
    ARDCONUS_TILEAFF = ⟨ARDCONUS_EXT.xmin, 150000, 0, ARDCONUS_EXT.ymax, 0, -150000⟩ ∧
    ARDCONUS_CHIPAFF = ⟨ARDCONUS_EXT.xmin, 3000, 0, ARDCONUS_EXT.ymax, 0, -3000⟩ ∧
    ARDCONUS_TILEAFF.xres = 5000 * 30 ∧
    ARDCONUS_CHIPAFF.xres = 100 * 30 := by
  simp only [ARDCONUS_EXT, ARDAK_EXT, ARDHI_EXT, ARDCONUS_TILEAFF, ARDCONUS_CHIPAFF]
  norm_num

/-- C6: for all integer tile indices h and v, including negative ones, and
every reference extent, ard_hv returns the extent
(xmin + h*150000, ymax - v*150000, xmin + h*150000 + 150000,
ymax - v*150000 - 150000) and the affine (xmin, 30, 0, ymax, 0, -30) with
zero rotation; in particular ard_hv 5 2 on the continental reference returns
extent (-1815585, 3014805, -1665585, 2864805) and affine
(-1815585, 30, 0, 3014805, 0, -30). -/
theorem ard_hv_formula :
    (∀ (h v : ℤ) (ref : GeoExtent),
      ard_hv h v ref =
        ((⟨ref.xmin + h * 150000, ref.ymax - v * 150000,
           ref.xmin + h * 150000 + 150000,
           ref.ymax - v * 150000 - 150000⟩ : GeoExtent),
         (⟨ref.xmin + h * 150000, 30, 0, ref.ymax - v * 150000, 0, -30⟩ : GeoAffine))) ∧
    ard_hv 5 2 ARDCONUS_EXT =
      ((⟨-1815585, 3014805, -1665585, 2864805⟩ : GeoExtent),
       (⟨-1815585, 30, 0, 3014805, 0, -30⟩ : GeoAffine)) := by
  constructor
  · intro h v ref
    have e1 : (h : ℚ) * 5000 * 30 = (h : ℚ) * 150000 := by ring
    have e2 : (v : ℚ) * 5000 * 30 = (v : ℚ) * 150000 := by ring
    unfold ard_hv
    rw [e1, e2]
    simp only [Prod.mk.injEq, GeoExtent.mk.injEq, GeoAffine.mk.injEq]
    norm_num
  · unfold ard_hv ARDCONUS_EXT
    simp only [Prod.mk.injEq, GeoExtent.mk.injEq, GeoAffine.mk.injEq]
    norm_num

/-- C1 (code evaluation at the failing input): with the rotated affine
(0, 1, 1, 0, 0, 1), whose pixel sizes are both nonzero, the source's
transform_geo applied to transform_rc of (row 1, column 0) returns
(row 1, column 1), not (row 1, column 0): the source computes the rotation
correction terms from the affine origins (affine[3]*affine[2] and
affine[0]*affine[4]) instead of the pixel indices prescribed by its own
docstring formulas, so the forward-then-inverse round trip fails. -/
theorem roundtrip_rotation_bug :
    transform_rc ⟨1, 0⟩ ⟨0, 1, 1, 0, 0, 1⟩ = ⟨1, 1⟩ ∧
    transform_geo (transform_rc ⟨1, 0⟩ ⟨0, 1, 1, 0, 0, 1⟩) ⟨0, 1, 1, 0, 0, 1⟩ = ⟨1, 1⟩ ∧
    transform_geo (transform_rc ⟨1, 0⟩ ⟨0, 1, 1, 0, 0, 1⟩) ⟨0, 1, 1, 0, 0, 1⟩ ≠ ⟨1, 0⟩ := by
  have h1 : transform_rc ⟨1, 0⟩ ⟨0, 1, 1, 0, 0, 1⟩ = ⟨1, 1⟩ := by
    unfold transform_rc
    norm_num
  have h2 : transform_geo (⟨1, 1⟩ : GeoCoordinate) ⟨0, 1, 1, 0, 0, 1⟩ = ⟨1, 1⟩ := by
    unfold transform_geo truncQ
    norm_num
  refine ⟨h1, by rw [h1]; exact h2, by rw [h1, h2]; simp⟩

/-- C8 (counterexample): on the all-zero affine the source's transform_geo
raises Python's division-by-zero error, not an InvalidAffine error. -/
theorem transform_geoE_error_kind_cex :
    transform_geoE ⟨0, 0⟩ ⟨0, 0, 0, 0, 0, 0⟩ = Except.error PyErr.zeroDivisionError ∧
    transform_geoE ⟨0, 0⟩ ⟨0, 0, 0, 0, 0, 0⟩ ≠ Except.error PyErr.invalidAffine := by
  have h : transform_geoE ⟨0, 0⟩ ⟨0, 0, 0, 0, 0, 0⟩ = Except.error PyErr.zeroDivisionError := by
    unfold transform_geoE
    norm_num
  refine ⟨h, ?_⟩
  rw [h]
  simp

/-- C8 (amended): for every coordinate and every affine with a zero
pixel-size divisor, transform_geo fails with the raw division-by-zero error
(it neither returns a NaN/infinity result nor raises InvalidAffine). -/
theorem transform_geoE_zero_division (coord : GeoCoordinate) (affine : GeoAffine)
    (h : affine.xres = 0 ∨ affine.yres = 0) :
    transform_geoE coord affine = Except.error PyErr.zeroDivisionError := by
  unfold transform_geoE
  rcases h with h | h
  · rw [if_pos h]
  · by_cases hx : affine.xres = 0
    · rw [if_pos hx]
    · rw [if_neg hx, if_pos h]

/-- C8 (witness): the amended theorem applied at the all-zero affine. -/
theorem transform_geoE_zero_division_witness :
    transform_geoE ⟨1, 2⟩ ⟨5, 0, 0, 7, 0, 30⟩ = Except.error PyErr.zeroDivisionError :=
  transform_geoE_zero_division ⟨1, 2⟩ ⟨5, 0, 0, 7, 0, 30⟩ (Or.inl rfl)

/-- truncQ of a rational strictly between -1 and 1 is zero. -/
theorem truncQ_eq_zero {q : ℚ} (h1 : -1 < q) (h2 : q < 1) : truncQ q = 0 := by
  unfold truncQ
  by_cases hq : q < 0
  · rw [if_pos hq]
    have ha : ⌈q⌉ ≤ (0 : ℤ) := Int.ceil_le.mpr (by push_cast; linarith)
    have hb : (-1 : ℤ) < ⌈q⌉ := Int.lt_ceil.mpr (by push_cast; linarith)
    omega
  · rw [if_neg hq]
    have hq0 : 0 ≤ q := not_lt.mp hq
    have ha : (0 : ℤ) ≤ ⌊q⌋ := Int.le_floor.mpr (by push_cast; linarith)
    have hb : ⌊q⌋ < (1 : ℤ) := Int.floor_lt.mpr (by push_cast; linarith)
    omega

/-- C3 (counterexample): under the rotated affine (0, 1, 1, 0, 0, 1) at the
coordinate (1, 5) the source returns row 5 (it subtracts
origin_x * y_rotation), while the claimed formula (subtracting
coord.x * x_rotation) yields row 4. -/
theorem transform_geo_claim_formula_cex :
    transform_geo ⟨1, 5⟩ ⟨0, 1, 1, 0, 0, 1⟩ = ⟨5, 1⟩ ∧
    transform_geo_claim ⟨1, 5⟩ ⟨0, 1, 1, 0, 0, 1⟩ = ⟨4, 1⟩ ∧
    transform_geo ⟨1, 5⟩ ⟨0, 1, 1, 0, 0, 1⟩ ≠ transform_geo_claim ⟨1, 5⟩ ⟨0, 1, 1, 0, 0, 1⟩ := by
  have h1 : transform_geo ⟨1, 5⟩ ⟨0, 1, 1, 0, 0, 1⟩ = ⟨5, 1⟩ := by
    unfold transform_geo truncQ
    norm_num
  have h2 : transform_geo_claim ⟨1, 5⟩ ⟨0, 1, 1, 0, 0, 1⟩ = ⟨4, 1⟩ := by
    unfold transform_geo_claim truncQ
    norm_num
  refine ⟨h1, h2, ?_⟩
  rw [h1, h2]
  decide

/-- C3 (amended): for every coordinate and every affine with zero rotation
terms, transform_geo agrees with the claimed formula (row from origin_y and
y_pixel_size, column from origin_x and x_pixel_size, each resolved by
truncation toward zero); in particular transform_geo((-1767039, 2940090))
under (-1815585, 30, 0, 3014805, 0, -30) is (row 2490, column 1618), and the
value at (-1, 1) under (0, 30, 0, 0, 0, -30) is (0, 0), where floor
resolution would give (-1, -1). -/
theorem transform_geo_zero_rotation_formula :
    (∀ (coord : GeoCoordinate) (affine : GeoAffine),
      affine.rot1 = 0 → affine.rot2 = 0 →
      transform_geo coord affine = transform_geo_claim coord affine) ∧
    transform_geo ⟨-1767039, 2940090⟩ ⟨-1815585, 30, 0, 3014805, 0, -30⟩ = ⟨2490, 1618⟩ ∧
    transform_geo ⟨-1, 1⟩ ⟨0, 30, 0, 0, 0, -30⟩ = ⟨0, 0⟩ := by
  refine ⟨fun coord affine h1 h2 => ?_, ?_, ?_⟩
  · unfold transform_geo transform_geo_claim
    rw [h1, h2]
    simp
  · unfold transform_geo truncQ
    norm_num
  · unfold transform_geo truncQ
    norm_num

/-- C3 (witness): the amended formula equality applied at a concrete
zero-rotation affine. -/
theorem transform_geo_zero_rotation_formula_witness :
    transform_geo ⟨7, 8⟩ ⟨1, 2, 0, 5, 0, -2⟩ = transform_geo_claim ⟨7, 8⟩ ⟨1, 2, 0, 5, 0, -2⟩ :=
  transform_geo_zero_rotation_formula.1 ⟨7, 8⟩ ⟨1, 2, 0, 5, 0, -2⟩ rfl rfl

/-- C5: for all integer tile indices h and v and every reference extent,
feeding the upper-left corner (xmin, ymax) of the extent returned by ard_hv
into determine_hv with that reference extent's tile-level affine returns
exactly (h, v), h in the horizontal (column) position and v in the vertical
(row) position. -/
theorem determine_hv_ard_hv_roundtrip (h v : ℤ) (ref : GeoExtent) :
    determine_hv ⟨(ard_hv h v ref).1.xmin, (ard_hv h v ref).1.ymax⟩ (tile_affine ref) = (h, v) := by
  unfold determine_hv transform_geo tile_affine ard_hv
  dsimp only
  simp only [Prod.mk.injEq]
  constructor
  · have hc : (ref.xmin + (h : ℚ) * 5000 * 30 - ref.xmin - ref.ymax * 0) / 150000
        = ((h : ℤ) : ℚ) := by
      rw [div_eq_iff (by norm_num : (150000 : ℚ) ≠ 0)]
      ring
    rw [hc, truncQ_intCast]
  · have hr : (ref.ymax - (v : ℚ) * 5000 * 30 - ref.ymax - ref.xmin * 0) / (-150000)
        = ((v : ℤ) : ℚ) := by
      rw [div_eq_iff (by norm_num : (-150000 : ℚ) ≠ 0)]
      ring
    rw [hr, truncQ_intCast]

/-- C10: every coordinate whose x lies strictly within one tile width to the
left of the continental reference xmin receives horizontal tile address
h = 0 from determine_hv with the tile affine, the same address as every
coordinate in the grid's first tile column, because int() truncates toward
zero; so such outside coordinates get no negative address and determine_hv
is not injective across that boundary. -/
theorem determine_hv_left_margin_h_zero :
    (∀ c : GeoCoordinate, ARDCONUS_EXT.xmin - 150000 < c.x → c.x < ARDCONUS_EXT.xmin →
      (determine_hv c ARDCONUS_TILEAFF).1 = 0) ∧
    (∀ c : GeoCoordinate, ARDCONUS_EXT.xmin ≤ c.x → c.x < ARDCONUS_EXT.xmin + 150000 →
      (determine_hv c ARDCONUS_TILEAFF).1 = 0) := by
  have key : ∀ c : GeoCoordinate,
      (determine_hv c ARDCONUS_TILEAFF).1 = truncQ ((c.x + 2565585) / 150000) := by
    intro c
    unfold determine_hv transform_geo ARDCONUS_TILEAFF ARDCONUS_EXT
    dsimp only
    norm_num
  constructor
  · intro c h1 h2
    rw [key c]
    apply truncQ_eq_zero
    · rw [lt_div_iff₀ (by norm_num : (0 : ℚ) < 150000)]
      norm_num [ARDCONUS_EXT] at h1 ⊢
      linarith
    · rw [div_lt_iff₀ (by norm_num : (0 : ℚ) < 150000)]
      norm_num [ARDCONUS_EXT] at h2 ⊢
      linarith
  · intro c h1 h2
    rw [key c]
    apply truncQ_eq_zero
    · rw [lt_div_iff₀ (by norm_num : (0 : ℚ) < 150000)]
      norm_num [ARDCONUS_EXT] at h1 ⊢
      linarith
    · rw [div_lt_iff₀ (by norm_num : (0 : ℚ) < 150000)]
      norm_num [ARDCONUS_EXT] at h2 ⊢
      linarith

/-- C10 (witness): concrete coordinates 34415 units left of the grid and
65585 units inside its first tile column both receive h = 0. -/
theorem determine_hv_left_margin_h_zero_witness :
    (determine_hv ⟨-2600000, 0⟩ ARDCONUS_TILEAFF).1 = 0 ∧
    (determine_hv ⟨-2500000, 0⟩ ARDCONUS_TILEAFF).1 = 0 :=
  ⟨determine_hv_left_margin_h_zero.1 ⟨-2600000, 0⟩
      (by norm_num [ARDCONUS_EXT]) (by norm_num [ARDCONUS_EXT]),
   determine_hv_left_margin_h_zero.2 ⟨-2500000, 0⟩
      (by norm_num [ARDCONUS_EXT]) (by norm_num [ARDCONUS_EXT])⟩

/-- C7 (counterexample): for the coordinate (-2565586, 3314805), one unit
left of the chip grid origin, chipul returns the grid origin itself because
int() truncates toward zero, so the returned corner does not satisfy
ulx less-or-equal coord.x: the claim fails for coordinates left of the
reference origin. -/
theorem chipul_outside_grid_cex :
    chipul ⟨-2565586, 3314805⟩ ARDCONUS_CHIPAFF = ⟨-2565585, 3314805⟩ ∧
    ¬ (chipul ⟨-2565586, 3314805⟩ ARDCONUS_CHIPAFF).x ≤ (-2565586 : ℚ) := by
  have h : chipul ⟨-2565586, 3314805⟩ ARDCONUS_CHIPAFF = ⟨-2565585, 3314805⟩ := by
    unfold chipul transform_rc transform_geo truncQ ARDCONUS_CHIPAFF ARDCONUS_EXT
    norm_num
  refine ⟨h, ?_⟩
  rw [h]
  norm_num

/-- C7 (amended): for every coordinate at or right of the reference origin x
and at or below the reference origin y, chipul returns the upper-left corner
of the 3000-unit chip cell containing it: ulx less-or-equal x less-than
ulx + 3000, uly - 3000 less-than y less-or-equal uly, and the corner lies on
the 3000-unit lattice anchored at the reference origin. -/
theorem chipul_chip_containment (c : GeoCoordinate)
    (hx : ARDCONUS_EXT.xmin ≤ c.x) (hy : c.y ≤ ARDCONUS_EXT.ymax) :
    (chipul c ARDCONUS_CHIPAFF).x ≤ c.x ∧
    c.x < (chipul c ARDCONUS_CHIPAFF).x + 3000 ∧
    (chipul c ARDCONUS_CHIPAFF).y - 3000 < c.y ∧
    c.y ≤ (chipul c ARDCONUS_CHIPAFF).y ∧
    ∃ i j : ℤ, (chipul c ARDCONUS_CHIPAFF).x = ARDCONUS_EXT.xmin + 3000 * i ∧
      (chipul c ARDCONUS_CHIPAFF).y = ARDCONUS_EXT.ymax - 3000 * j := by
  norm_num [ARDCONUS_EXT] at hx hy
  have harg1 : (c.x - (-2565585 : ℚ) - 3314805 * 0) / 3000 = (c.x + 2565585) / 3000 := by
    ring
  have harg2 : (c.y - (3314805 : ℚ) - -2565585 * 0) / -3000 = (3314805 - c.y) / 3000 := by
    ring
  have hcol : (transform_geo c ARDCONUS_CHIPAFF).column = truncQ ((c.x + 2565585) / 3000) := by
    unfold transform_geo ARDCONUS_CHIPAFF ARDCONUS_EXT
    dsimp only
    rw [harg1]
  have hrow : (transform_geo c ARDCONUS_CHIPAFF).row = truncQ ((3314805 - c.y) / 3000) := by
    unfold transform_geo ARDCONUS_CHIPAFF ARDCONUS_EXT
    dsimp only
    rw [harg2]
  have hq1 : (0 : ℚ) ≤ (c.x + 2565585) / 3000 :=
    div_nonneg (by linarith) (by norm_num)
  have hq2 : (0 : ℚ) ≤ (3314805 - c.y) / 3000 :=
    div_nonneg (by linarith) (by norm_num)
  rw [truncQ_of_nonneg hq1] at hcol
  rw [truncQ_of_nonneg hq2] at hrow
  set k := ⌊(c.x + 2565585) / 3000⌋ with hk
  set m := ⌊(3314805 - c.y) / 3000⌋ with hm
  have hchipx : (chipul c ARDCONUS_CHIPAFF).x = -2565585 + (k : ℚ) * 3000 := by
    unfold chipul transform_rc
    dsimp only
    rw [hcol, hrow]
    simp only [ARDCONUS_CHIPAFF, ARDCONUS_EXT]
    ring
  have hchipy : (chipul c ARDCONUS_CHIPAFF).y = 3314805 - (m : ℚ) * 3000 := by
    unfold chipul transform_rc
    dsimp only
    rw [hcol, hrow]
    simp only [ARDCONUS_CHIPAFF, ARDCONUS_EXT]
    ring
  have hb1 : (k : ℚ) ≤ (c.x + 2565585) / 3000 := Int.floor_le _
  have hb2 : (c.x + 2565585) / 3000 < (k : ℚ) + 1 := Int.lt_floor_add_one _
  have hb3 : (m : ℚ) ≤ (3314805 - c.y) / 3000 := Int.floor_le _
  have hb4 : (3314805 - c.y) / 3000 < (m : ℚ) + 1 := Int.lt_floor_add_one _
  rw [le_div_iff₀ (by norm_num : (0 : ℚ) < 3000)] at hb1 hb3
  rw [div_lt_iff₀ (by norm_num : (0 : ℚ) < 3000)] at hb2 hb4
  refine ⟨?_, ?_, ?_, ?_, k, m, ?_, ?_⟩
  · rw [hchipx]; linarith
  · rw [hchipx]; linarith
  · rw [hchipy]; linarith
  · rw [hchipy]; linarith
  · rw [hchipx]
    norm_num [ARDCONUS_EXT]
    ring
  · rw [hchipy]
    norm_num [ARDCONUS_EXT]
    ring

/-- C7 (witness): the containment applied at the concrete in-grid
coordinate (0, 0), whose chip upper-left corner is (-585, 2805). -/
theorem chipul_chip_containment_witness :
    (chipul (⟨0, 0⟩ : GeoCoordinate) ARDCONUS_CHIPAFF).x ≤ (0 : ℚ) ∧
    (0 : ℚ) < (chipul (⟨0, 0⟩ : GeoCoordinate) ARDCONUS_CHIPAFF).x + 3000 ∧
    (chipul (⟨0, 0⟩ : GeoCoordinate) ARDCONUS_CHIPAFF).y - 3000 < (0 : ℚ) ∧
    (0 : ℚ) ≤ (chipul (⟨0, 0⟩ : GeoCoordinate) ARDCONUS_CHIPAFF).y ∧
    ∃ i j : ℤ,
      (chipul (⟨0, 0⟩ : GeoCoordinate) ARDCONUS_CHIPAFF).x = ARDCONUS_EXT.xmin + 3000 * i ∧
      (chipul (⟨0, 0⟩ : GeoCoordinate) ARDCONUS_CHIPAFF).y = ARDCONUS_EXT.ymax - 3000 * j :=
  chipul_chip_containment ⟨0, 0⟩ (by norm_num [ARDCONUS_EXT]) (by norm_num [ARDCONUS_EXT])

/-- C4 (counterexample): requesting, from a concrete 2x2 raster, an extent
whose transformed window overflows the raster's pixel bounds fails with the
raster library's out-of-range read error, not with an ExtentOutOfBounds
error (the source defines no such error and performs no bounds check of its
own). -/
theorem extract_geoextent_error_kind_cex :
    extract_geoextent testRaster ⟨0, 0, 5, -5⟩ = Except.error PyErr.windowOutOfRange ∧
    extract_geoextent testRaster ⟨0, 0, 5, -5⟩ ≠ Except.error PyErr.extentOutOfBounds := by
  have h : extract_geoextent testRaster ⟨0, 0, 5, -5⟩ = Except.error PyErr.windowOutOfRange := by
    unfold extract_geoextent extract_rcextent read_window window_in_bounds transform_ext
      split_extent split_rcextent transform_geo truncQ testRaster
    norm_num
  refine ⟨h, ?_⟩
  rw [h]
  simp

/-- C4 (amended): extraction has no partial-success mode.  For every raster
and extent whose transformed row/column window leaves the raster's pixel
bounds, extract_geoextent fails with the raster library's out-of-range read
error and never returns a truncated, partial, or clamped array; and whenever
extraction does return an array, that array has exactly the requested window
dimensions. -/
theorem extract_geoextent_all_or_nothing :
    (∀ (r : Raster) (e : GeoExtent),
      window_in_bounds r (transform_ext e r.affine) = false →
      extract_geoextent r e = Except.error PyErr.windowOutOfRange) ∧
    (∀ (r : Raster) (e : GeoExtent) (a : List (List ℤ)),
      extract_geoextent r e = Except.ok a →
      a.length = ((transform_ext e r.affine).end_row - (transform_ext e r.affine).st_row).toNat ∧
      ∀ row ∈ a,
        row.length = ((transform_ext e r.affine).end_col - (transform_ext e r.affine).st_col).toNat) := by
  have heta : ∀ rc : RowColumnExtent,
      (⟨(split_rcextent rc).1.row, (split_rcextent rc).1.column,
        (split_rcextent rc).2.row, (split_rcextent rc).2.column⟩ : RowColumnExtent) = rc :=
    fun rc => rfl
  constructor
  · intro r e hfalse
    unfold extract_geoextent extract_rcextent read_window
    rw [heta, hfalse]
    simp
  · intro r e a ha
    unfold extract_geoextent extract_rcextent read_window at ha
    rw [heta] at ha
    by_cases hb : window_in_bounds r (transform_ext e r.affine) = true
    · rw [if_pos hb] at ha
      simp only [Except.ok.injEq] at ha
      subst ha
      constructor
      · simp
      · intro row hrow
        simp only [List.mem_map] at hrow
        obtain ⟨i, _, rfl⟩ := hrow
        simp
    · rw [if_neg hb] at ha
      exact absurd ha (by simp)

/-- C4 (witness): the all-or-nothing theorem applied to the concrete 2x2
raster and an extent whose window end row and column are 5, beyond the
raster's pixel bounds. -/
theorem extract_geoextent_all_or_nothing_witness :
    extract_geoextent testRaster ⟨0, 0, 5, -5⟩ = Except.error PyErr.windowOutOfRange :=
  extract_geoextent_all_or_nothing.1 testRaster ⟨0, 0, 5, -5⟩ (by
    unfold window_in_bounds transform_ext split_extent transform_geo truncQ testRaster
    norm_num)
